import Mathlib

/-!
Shallow embedding of `src/src/app/youtube/Player.ts` (the `Player` adapter of
maia-yt), together with the external collaborators it composes where their
behaviour decides a claim.  The adapter wraps a YouTube player DOM element:
it discovers the element's API method names (`getApiInterface`), shadows each
of them with a forwarding closure that routes through `callApi`, bridges the
player's native events through a messaging port, and restores the element on
disposal.

Modelling choices:
* JavaScript runtime values passed as arguments are the inductive `Value`
  (undefined, null, booleans, numbers, strings, object identities).
* Callables on the element are `Fn`: `Fn.orig n` is a pre-existing callable
  (identified by `n`), `Fn.forwarding key` is the fresh per-key closure
  installed by the constructor (a fresh closure is never reference-equal to a
  pre-existing callable, which the two constructors encode).
* The messaging port (`ServicePort.callSync`, not part of the excerpt) is an
  oracle `Port` with one field per channel, each returning the response the
  remote side gives (`none` models an absent / `undefined` response, matching
  the declared response types `{value:any}|undefined`, `PlayerData|undefined`
  and `boolean|undefined`).
* Observable side effects (port calls, listener routing, invoking an element
  callable, `preventDefault`) are recorded chronologically in a list of `Act`.
* Thrown JavaScript exceptions are `Except JsError`; `JsError.error msg`
  is `throw new Error(msg)` and `JsError.typeError` is the TypeError raised
  by calling `undefined`.
-/

namespace MaiaPlayer

/-- A JavaScript runtime value (arguments and results of player API calls). -/
inductive Value where
  | undef
  | vnull
  | boolean (b : Bool)
  | num (n : Int)
  | str (s : String)
  | obj (n : Nat)
deriving DecidableEq, Repr

/-- Identity of a callable sitting on the player element: either a
pre-existing callable (`orig n`, reference-identified by `n`) or the
forwarding closure `(...args) => this.callApi(key, ...args)` that the
`Player` constructor installs for `key` (Player.ts line 53). -/
inductive Fn where
  | orig (n : Nat)
  | forwarding (key : String)
deriving DecidableEq, Repr

/-- Modelled from the spec: the `EventType` enumeration
(`src/app/youtube/EventType.ts` is not part of the excerpt); the kinds are
the emitted application events listed in spec section 6. -/
inductive EventType where
  | ready
  | unstarted
  | ended
  | played
  | paused
  | buffering
  | cued
  | adUnstarted
  | adEnded
  | adPlayed
  | adPaused
  | adBuffering
  | adCued
  | volumeChange
  | fullscreenChange
  | qualityChange
  | rateChange
  | apiChange
  | error
  | sizeChange
  | sharePanelOpened
  | videoDataChange
  | playlistUpdate
  | cueRangeEnter
  | cueRangeExit
  | connectionIssue
  | shareClicked
  | loadProgress
  | videoProgress
  | reloadRequired
  | destroy
deriving DecidableEq, Repr

/-- An observable action performed by the adapter, in chronological order:
synchronous port calls on the three channels, routing of listener
registrations (internal listenable vs. calling a native callable), invoking
a callable of the element, and `preventDefault` on the native event. -/
inductive Act where
  | portDataUpdate (id : String) (arg : Value)
  | portApiCall (id : String) (name : String) (args : List Value)
  | portEvent (id : String) (etype : EventType) (args : List Value)
  | listenableAdd (t f : Value)
  | listenableRemove (t f : Value)
  | callFn (f : Fn) (args : List Value)
  | preventDefault
deriving DecidableEq, Repr

/-- Modelled from the spec: the messaging port's `callSync(channel, ...args)`
(`ServicePort` is not part of the excerpt).  One oracle per channel used by
the adapter — "player#data-update", "player#api-call", "player#event" — each
returning the remote response, `none` for an absent (`undefined`) response. -/
structure Port where
  dataUpdate : String → Value → Option Value
  apiCall : String → String → List Value → Option Value
  eventCall : String → EventType → List Value → Option Bool

/-- The environment a run of the adapter lives in: the port oracle and the
semantics `call f args` of invoking an element callable. -/
structure Env where
  port : Port
  call : Fn → List Value → Value

/-- The `_api` snapshot object built by `Player.getApi` (Player.ts lines
198-204): a JavaScript object mapping each discovered key to the callable the
element had when the snapshot was taken. -/
structure Api where
  lookup : String → Option Fn

/-- State of one `Player` adapter instance plus the element it wraps.
`elemProps` is the element's current operation table (it survives the
adapter's teardown); `elemPresent`, `api` and `port` model the `_element`,
`_api` and `_port` fields, which `disposeInternal` deletes (Player.ts lines
72-75); `disposed` is the base `Component`'s disposed flag. -/
structure PState where
  id : String
  elemPresent : Bool
  elemHasApiInterface : Bool
  elemApiList : List String
  elemProps : String → Fn
  api : Option Api
  port : Bool
  hasListenable : Bool
  disposed : Bool

/-- `Player.getApi` (Player.ts lines 185-210): returns the cached `_api`
snapshot, otherwise builds it from the element — throwing
`"Player (id) is not initialized."` when the element reference is absent and
`"No API interface on player element."` when the element lacks
`getApiInterface` — and caches it. -/
inductive JsError where
  | error (msg : String)
  | typeError
deriving DecidableEq, Repr

def PState.getApi (s : PState) : Except JsError (Api × PState) :=
  match s.api with
  | some a => .ok (a, s)
  | none =>
    if s.elemPresent = false then
      .error (.error ("Player (" ++ s.id ++ ") is not initialized."))
    else if s.elemHasApiInterface = false then
      .error (.error "No API interface on player element.")
    else
      let a : Api := ⟨fun k => if k ∈ s.elemApiList then some (s.elemProps k) else none⟩
      .ok (a, { s with api := some a })

/-- The `Player` constructor (Player.ts lines 42-56): records the fields,
snapshots the API via `getApi`, then shadows every discovered key on the
element with the forwarding closure for that key.  `origs` gives the
reference identity of the element's pre-existing callables. -/
def construct (id : String) (origs : String → Nat) (elemPresent hasIface : Bool)
    (apiList : List String) : Except JsError PState :=
  let s0 : PState :=
    { id := id
      elemPresent := elemPresent
      elemHasApiInterface := hasIface
      elemApiList := apiList
      elemProps := fun k => Fn.orig (origs k)
      api := none
      port := true
      hasListenable := false
      disposed := false }
  match s0.getApi with
  | .error e => .error e
  | .ok (a, s1) =>
    .ok { s1 with
      elemProps := fun k =>
        if (a.lookup k).isSome then Fn.forwarding k else s1.elemProps k }

/-- `Player.disposeInternal` (Player.ts lines 58-76): restores every key of
the `_api` snapshot back onto the element, disposes the player listenable,
and deletes `_playerListenable`, `_element`, `_api` and `_port`. -/
def PState.disposeInternal (s : PState) : Except JsError PState :=
  match s.getApi with
  | .error e => .error e
  | .ok (a, s1) =>
    .ok { s1 with
      elemProps := fun k =>
        match a.lookup k with
        | some f => f
        | none => s1.elemProps k
      hasListenable := false
      elemPresent := false
      api := none
      port := false }

/-- Modelled from the spec: the base `Component` lifecycle utility (not part
of the excerpt) exposes a public dispose operation that sets the disposed
flag and runs `disposeInternal` exactly once — "Double disposal must be a
no-op" (spec section 4.1). -/
def PState.dispose (s : PState) : Except JsError PState :=
  if s.disposed then .ok s
  else PState.disposeInternal { s with disposed := true }

/-- `Player._fireEvent` (Player.ts lines 221-227): synchronously calls the
port on channel "player#event" with `(id, type, ...args)` and invokes
`preventDefault` on the event when the response is `true`. -/
def fireEvent (env : Env) (s : PState) (t : EventType) (args : List Value) :
    Except JsError (List Act) :=
  if s.port = false then .error .typeError
  else
    .ok (Act.portEvent s.id t args ::
      (if env.port.eventCall s.id t args = some true then [Act.preventDefault] else []))

/-- `Player._addEventListener` / `Player._removeEventListener` (Player.ts
lines 113-129): fetch the API snapshot, then — when disposed — call the
snapshot's native `addEventListener`/`removeEventListener` callable with
`(type, fn)`, otherwise route through the per-instance player listenable
(creating it on first use, Player.ts lines 131-136). -/
def listenBranch (s : PState) (methodName : String) (isAdd : Bool)
    (args : List Value) : Except JsError (PState × List Act) :=
  match s.getApi with
  | .error e => .error e
  | .ok (a, s1) =>
    if s1.disposed then
      match a.lookup methodName with
      | none => .error .typeError
      | some g =>
        .ok (s1, [Act.callFn g [args.getD 0 .undef, args.getD 1 .undef]])
    else
      .ok ({ s1 with hasListenable := true },
        [if isAdd then Act.listenableAdd (args.getD 0 .undef) (args.getD 1 .undef)
         else Act.listenableRemove (args.getD 0 .undef) (args.getD 1 .undef)])

/-- Result of one `callApi` invocation: the returned value, the chronological
action trace, and the post-state. -/
structure CallResult where
  value : Value
  acts : List Act
  state : PState

/-- The tail of `Player.callApi` (Player.ts lines 103-110): when the switch
captured no port response, call the original snapshot callable of `name` with
the (possibly mutated) arguments and return its result. -/
def finishNoReturn (env : Env) (s : PState) (name : String) (args : List Value)
    (acts : List Act) : Except JsError CallResult :=
  match s.getApi with
  | .error e => .error e
  | .ok (a, s1) =>
    match a.lookup name with
    | none => .error .typeError
    | some f => .ok ⟨env.call f args, acts ++ [Act.callFn f args], s1⟩

/-- The `default` case of the `callApi` switch (Player.ts lines 98-100)
followed by the shared tail: synchronously call the port on channel
"player#api-call" with `(id, name, ...args)`; an absent response falls
through to the original callable, a present response `{value}` is returned. -/
def defaultBranch (env : Env) (s : PState) (name : String) (args : List Value)
    (acts : List Act) : Except JsError CallResult :=
  if s.port = false then .error .typeError
  else
    match env.port.apiCall s.id name args with
    | some v => .ok ⟨v, acts ++ [Act.portApiCall s.id name args], s⟩
    | none => finishNoReturn env s name args (acts ++ [Act.portApiCall s.id name args])

/-- `args[0] = v` in JavaScript: replaces the head, or creates index 0 on an
empty argument list. -/
def setHead (args : List Value) (v : Value) : List Value :=
  match args with
  | [] => [v]
  | _ :: t => v :: t

/-- `Player.callApi` (Player.ts lines 82-111): the switch on the operation
name — listener registration routing, the synthetic destroy event, the
"player#data-update" transform of the first argument for the three data-load
names (which falls through to the default case), and the generic
"player#api-call" default — followed by the fall-through to the original
callable when no port response was captured. -/
def callApi (env : Env) (s : PState) (name : String) (args : List Value) :
    Except JsError CallResult :=
  if name = "addEventListener" then
    match listenBranch s "addEventListener" true args with
    | .error e => .error e
    | .ok (s2, acts) => finishNoReturn env s2 name args acts
  else if name = "removeEventListener" then
    match listenBranch s "removeEventListener" false args with
    | .error e => .error e
    | .ok (s2, acts) => finishNoReturn env s2 name args acts
  else if name = "destroy" then
    match fireEvent env s .destroy [] with
    | .error e => .error e
    | .ok acts => finishNoReturn env s name args acts
  else if name = "loadVideoByPlayerVars" ∨ name = "cueVideoByPlayerVars" ∨
      name = "updateVideoData" then
    if s.port = false then .error .typeError
    else
      let a0 := args.getD 0 .undef
      let a0' := (env.port.dataUpdate s.id a0).getD a0
      defaultBranch env s name (setHead args a0') [Act.portDataUpdate s.id a0]
  else
    defaultBranch env s name args []

/-- The three data-load operation names of the `callApi` switch
(Player.ts lines 94-96). -/
def dataLoadNames : List String :=
  ["loadVideoByPlayerVars", "cueVideoByPlayerVars", "updateVideoData"]

/-- The six specially handled operation names of the `callApi` switch
(Player.ts lines 85-96). -/
def specialApiNames : List String :=
  ["addEventListener", "removeEventListener", "destroy"] ++ dataLoadNames

/-- The switch of `Player._handleStateChange` (Player.ts lines 237-258):
native numeric state codes mapped to application event kinds; unmapped codes
yield `none` (the handler returns without firing). -/
def stateChangeType (state : Int) : Option EventType :=
  if state = -1 then some .unstarted
  else if state = 0 then some .ended
  else if state = 1 then some .played
  else if state = 2 then some .paused
  else if state = 3 then some .buffering
  else if state = 5 then some .cued
  else none

/-- The switch of `Player._handleAdStateChange` (Player.ts lines 304-325):
the same numeric codes mapped to the ad-prefixed event kinds. -/
def adStateChangeType (state : Int) : Option EventType :=
  if state = -1 then some .adUnstarted
  else if state = 0 then some .adEnded
  else if state = 1 then some .adPlayed
  else if state = 2 then some .adPaused
  else if state = 3 then some .adBuffering
  else if state = 5 then some .adCued
  else none

/-- `Player._handleStateChange` (Player.ts lines 233-261): maps the native
detail code and fires the mapped event, or fires nothing. -/
def handleStateChange (env : Env) (s : PState) (detail : Int) :
    Except JsError (List Act) :=
  match stateChangeType detail with
  | none => .ok []
  | some t => fireEvent env s t []

/-- `Player._handleAdStateChange` (Player.ts lines 300-328). -/
def handleAdStateChange (env : Env) (s : PState) (detail : Int) :
    Except JsError (List Act) :=
  match adStateChangeType detail with
  | none => .ok []
  | some t => fireEvent env s t []

/-- The event kinds forwarded to the port in a trace, in order. -/
def firedKinds (acts : List Act) : List EventType :=
  acts.filterMap fun x =>
    match x with
    | Act.portEvent _ t _ => some t
    | _ => none

/-- Whether an action is a port call on the "player#api-call" channel. -/
def Act.isPortApiCall : Act → Bool
  | Act.portApiCall _ _ _ => true
  | _ => false

/-- Whether an action is a port call on the "player#event" channel with the
given event kind. -/
def Act.isEventOf (t : EventType) : Act → Bool
  | Act.portEvent _ u _ => u = t
  | _ => false

/-- An external operation applied to a live adapter: a call to one of the
shadowing closures (hence to `callApi`), or disposal. -/
inductive Op where
  | callOp (name : String) (args : List Value)
  | disposeOp

/-- One external operation step. -/
def stepOp (env : Env) (s : PState) : Op → Except JsError PState
  | .callOp n args => (callApi env s n args).map (fun r => r.state)
  | .disposeOp => s.dispose

/-- A sequence of external operations, stopping at the first thrown error. -/
def runOps (env : Env) : PState → List Op → Except JsError PState
  | s, [] => .ok s
  | s, op :: rest =>
    match stepOp env s op with
    | .error e => .error e
    | .ok s' => runOps env s' rest

/-- The `_api` snapshot a freshly constructed adapter caches: every
discovered key mapped to the element's pre-shadow callable. -/
def snapshotApi (origs : String → Nat) (apiList : List String) : Api :=
  ⟨fun k => if k ∈ apiList then some (Fn.orig (origs k)) else none⟩

/-- The `_api` snapshot lookup, unfolded. -/
theorem snapshotApi_lookup (origs : String → Nat) (apiList : List String) (k : String) :
    (snapshotApi origs apiList).lookup k =
      if k ∈ apiList then some (Fn.orig (origs k)) else none := rfl

/-- A cached snapshot makes `getApi` a pure read. -/
theorem getApi_cached {s : PState} {a : Api} (h : s.api = some a) :
    s.getApi = .ok (a, s) := by
  simp [PState.getApi, h]

/- Concrete fixtures used by the witnesses. -/

def testOrigs : String → Nat := fun _ => 0

def testApiList : List String :=
  ["addEventListener", "removeEventListener", "destroy", "loadVideoByPlayerVars",
   "playVideo"]

/-- A live adapter state as left by the constructor: shadowed element,
cached snapshot, live port. -/
def testPState : PState :=
  { id := "p1"
    elemPresent := true
    elemHasApiInterface := true
    elemApiList := testApiList
    elemProps := fun k => Fn.forwarding k
    api := some (snapshotApi testOrigs testApiList)
    port := true
    hasListenable := false
    disposed := false }

/-- An environment whose port never responds and whose callables all return
`undefined`. -/
def testEnv : Env :=
  { port :=
      { dataUpdate := fun _ _ => none
        apiCall := fun _ _ _ => none
        eventCall := fun _ _ _ => none }
    call := fun _ _ => Value.undef }

/-- `fireEvent` on a live port: one "player#event" call, optionally followed
by `preventDefault`. -/
theorem fireEvent_firedKinds (env : Env) (s : PState) (t : EventType)
    (args : List Value) (hport : s.port = true) :
    ∃ acts, fireEvent env s t args = .ok acts ∧ firedKinds acts = [t] := by
  refine ⟨Act.portEvent s.id t args ::
    (if env.port.eventCall s.id t args = some true then [Act.preventDefault] else []),
    by simp [fireEvent, hport], ?_⟩
  split <;> simp [firedKinds]

/-- A state-change style handler (mapped kind `oc`) fires exactly the kinds
in `oc.toList`. -/
theorem handleKind_fired (env : Env) (s : PState) (hport : s.port = true)
    (oc : Option EventType) :
    ∃ acts,
      (match oc with
        | none => (Except.ok [] : Except JsError (List Act))
        | some t => fireEvent env s t []) = .ok acts ∧
      firedKinds acts = oc.toList := by
  cases oc with
  | none => exact ⟨[], rfl, rfl⟩
  | some t =>
    obtain ⟨acts, h1, h2⟩ := fireEvent_firedKinds env s t [] hport
    exact ⟨acts, h1, by simp [h2]⟩

/-- Claim C5: for every forwarded native event, the adapter calls the port
synchronously on channel "player#event" with (id, normalized event kind,
...extracted fields), and the native event's default is suppressed
(`preventDefault` invoked) if and only if the port's response is the boolean
`true`; a `false` or absent response leaves the event unsuppressed. -/
theorem c5_fireEvent_suppression (env : Env) (s : PState) (t : EventType)
    (args : List Value) (hport : s.port = true) :
    ∃ acts, fireEvent env s t args = .ok acts ∧
      acts.head? = some (Act.portEvent s.id t args) ∧
      (Act.preventDefault ∈ acts ↔ env.port.eventCall s.id t args = some true) := by
  refine ⟨Act.portEvent s.id t args ::
    (if env.port.eventCall s.id t args = some true then [Act.preventDefault] else []),
    by simp [fireEvent, hport], rfl, ?_⟩
  split <;> simp_all

/-- Witness for C5 at a concrete live state and event. -/
theorem c5_witness :
    ∃ acts, fireEvent testEnv testPState EventType.ready [] = .ok acts ∧
      acts.head? = some (Act.portEvent testPState.id EventType.ready []) ∧
      (Act.preventDefault ∈ acts ↔
        testEnv.port.eventCall testPState.id EventType.ready [] = some true) :=
  c5_fireEvent_suppression testEnv testPState EventType.ready [] rfl

/-- Claim C4: the numeric state-change detail codes -1, 0, 1, 2, 3, 5 map
respectively and exclusively to unstarted, ended, played, paused, buffering,
cued — each fired exactly once — any other code fires nothing, and the
ad-state-change handler applies the identical mapping to the ad-prefixed
kinds. -/
theorem c4_state_change_mapping (env : Env) (s : PState) (c : Int)
    (hport : s.port = true) :
    ∃ acts adActs,
      handleStateChange env s c = .ok acts ∧
      handleAdStateChange env s c = .ok adActs ∧
      firedKinds acts =
        (if c = -1 then [EventType.unstarted] else if c = 0 then [EventType.ended]
         else if c = 1 then [EventType.played] else if c = 2 then [EventType.paused]
         else if c = 3 then [EventType.buffering] else if c = 5 then [EventType.cued]
         else []) ∧
      firedKinds adActs =
        (if c = -1 then [EventType.adUnstarted] else if c = 0 then [EventType.adEnded]
         else if c = 1 then [EventType.adPlayed] else if c = 2 then [EventType.adPaused]
         else if c = 3 then [EventType.adBuffering] else if c = 5 then [EventType.adCued]
         else []) := by
  obtain ⟨acts, h1, h2⟩ := handleKind_fired env s hport (stateChangeType c)
  obtain ⟨adActs, h3, h4⟩ := handleKind_fired env s hport (adStateChangeType c)
  refine ⟨acts, adActs, by simpa [handleStateChange] using h1,
    by simpa [handleAdStateChange] using h3, ?_, ?_⟩
  · rw [h2]; unfold stateChangeType; split_ifs <;> rfl
  · rw [h4]; unfold adStateChangeType; split_ifs <;> rfl

/-- Witness for C4 at code 1 on a concrete live state. -/
theorem c4_witness :
    ∃ acts adActs,
      handleStateChange testEnv testPState 1 = .ok acts ∧
      handleAdStateChange testEnv testPState 1 = .ok adActs ∧
      firedKinds acts =
        (if (1 : Int) = -1 then [EventType.unstarted]
         else if (1 : Int) = 0 then [EventType.ended]
         else if (1 : Int) = 1 then [EventType.played]
         else if (1 : Int) = 2 then [EventType.paused]
         else if (1 : Int) = 3 then [EventType.buffering]
         else if (1 : Int) = 5 then [EventType.cued]
         else []) ∧
      firedKinds adActs =
        (if (1 : Int) = -1 then [EventType.adUnstarted]
         else if (1 : Int) = 0 then [EventType.adEnded]
         else if (1 : Int) = 1 then [EventType.adPlayed]
         else if (1 : Int) = 2 then [EventType.adPaused]
         else if (1 : Int) = 3 then [EventType.adBuffering]
         else if (1 : Int) = 5 then [EventType.adCued]
         else []) :=
  c4_state_change_mapping testEnv testPState 1 rfl

/-- Full behaviour of the `default` switch case on a live adapter with a
cached snapshot: the port is consulted on "player#api-call" first; an absent
response falls through to the snapshot's original callable. -/
theorem defaultBranch_eq (env : Env) (s : PState) (origs : String → Nat)
    (apiList : List String) (name : String) (args : List Value) (acts : List Act)
    (hapi : s.api = some (snapshotApi origs apiList)) (hport : s.port = true)
    (hmem : name ∈ apiList) :
    defaultBranch env s name args acts =
      .ok (match env.port.apiCall s.id name args with
        | some v => ⟨v, acts ++ [Act.portApiCall s.id name args], s⟩
        | none =>
          ⟨env.call (Fn.orig (origs name)) args,
           (acts ++ [Act.portApiCall s.id name args]) ++
             [Act.callFn (Fn.orig (origs name)) args], s⟩) := by
  unfold defaultBranch
  rw [if_neg (show ¬ s.port = false by simp [hport])]
  cases hresp : env.port.apiCall s.id name args with
  | some v => rfl
  | none =>
    simp [finishNoReturn, getApi_cached hapi, snapshotApi_lookup, hmem]

/-- Claim C2: for every operation name outside the special set and any
argument list, `callApi` first calls the port synchronously on
"player#api-call" with (id, name, ...args); when the port returns no
response it calls the original pre-shadow operation with the same arguments
and returns its result, otherwise it returns the value contained in the
port's response. -/
theorem c2_callApi_default (env : Env) (s : PState) (origs : String → Nat)
    (apiList : List String) (name : String) (args : List Value)
    (hapi : s.api = some (snapshotApi origs apiList)) (hport : s.port = true)
    (hname : name ∉ specialApiNames) (hmem : name ∈ apiList) :
    callApi env s name args =
      .ok (match env.port.apiCall s.id name args with
        | some v => ⟨v, [Act.portApiCall s.id name args], s⟩
        | none =>
          ⟨env.call (Fn.orig (origs name)) args,
           [Act.portApiCall s.id name args, Act.callFn (Fn.orig (origs name)) args],
           s⟩) := by
  have h1 : ¬ name = "addEventListener" := fun h =>
    hname (by simp [specialApiNames, dataLoadNames, h])
  have h2 : ¬ name = "removeEventListener" := fun h =>
    hname (by simp [specialApiNames, dataLoadNames, h])
  have h3 : ¬ name = "destroy" := fun h =>
    hname (by simp [specialApiNames, dataLoadNames, h])
  have h4 : ¬ (name = "loadVideoByPlayerVars" ∨ name = "cueVideoByPlayerVars" ∨
      name = "updateVideoData") := fun h => by
    rcases h with h | h | h <;> exact hname (by simp [specialApiNames, dataLoadNames, h])
  unfold callApi
  rw [if_neg h1, if_neg h2, if_neg h3, if_neg h4,
    defaultBranch_eq env s origs apiList name args [] hapi hport hmem]
  cases env.port.apiCall s.id name args <;> simp

/-- Witness for C2: an ordinary name on a concrete live state. -/
theorem c2_witness :
    callApi testEnv testPState "playVideo" [] =
      .ok (match testEnv.port.apiCall testPState.id "playVideo" [] with
        | some v => ⟨v, [Act.portApiCall testPState.id "playVideo" []], testPState⟩
        | none =>
          ⟨testEnv.call (Fn.orig (testOrigs "playVideo")) [],
           [Act.portApiCall testPState.id "playVideo" [],
            Act.callFn (Fn.orig (testOrigs "playVideo")) []],
           testPState⟩) :=
  c2_callApi_default testEnv testPState testOrigs testApiList "playVideo" [] rfl rfl
    (by decide) (by decide)

/-- Claim C3: for the three data-load names, `callApi` first asks the port
on "player#data-update" to transform the first argument, uses the original
first argument unchanged when the port returns no value, and in either case
proceeds to the "player#api-call" channel with the (possibly transformed)
arguments. -/
theorem c3_dataLoad_transform (env : Env) (s : PState) (origs : String → Nat)
    (apiList : List String) (name : String) (a0 : Value) (rest : List Value)
    (hapi : s.api = some (snapshotApi origs apiList)) (hport : s.port = true)
    (hname : name ∈ dataLoadNames) (hmem : name ∈ apiList) :
    callApi env s name (a0 :: rest) =
      .ok (match env.port.apiCall s.id name
            (((env.port.dataUpdate s.id a0).getD a0) :: rest) with
        | some v =>
          ⟨v, [Act.portDataUpdate s.id a0,
               Act.portApiCall s.id name
                 (((env.port.dataUpdate s.id a0).getD a0) :: rest)], s⟩
        | none =>
          ⟨env.call (Fn.orig (origs name))
             (((env.port.dataUpdate s.id a0).getD a0) :: rest),
           [Act.portDataUpdate s.id a0,
            Act.portApiCall s.id name
              (((env.port.dataUpdate s.id a0).getD a0) :: rest),
            Act.callFn (Fn.orig (origs name))
              (((env.port.dataUpdate s.id a0).getD a0) :: rest)],
           s⟩) := by
  have h4 : name = "loadVideoByPlayerVars" ∨ name = "cueVideoByPlayerVars" ∨
      name = "updateVideoData" := by simpa [dataLoadNames] using hname
  have h1 : ¬ name = "addEventListener" := by rcases h4 with h | h | h <;> simp [h]
  have h2 : ¬ name = "removeEventListener" := by rcases h4 with h | h | h <;> simp [h]
  have h3 : ¬ name = "destroy" := by rcases h4 with h | h | h <;> simp [h]
  unfold callApi
  rw [if_neg h1, if_neg h2, if_neg h3, if_pos h4,
    if_neg (show ¬ s.port = false by simp [hport])]
  simp only [List.getD_cons_zero, setHead]
  rw [defaultBranch_eq env s origs apiList name
    (((env.port.dataUpdate s.id a0).getD a0) :: rest)
    [Act.portDataUpdate s.id a0] hapi hport hmem]
  cases env.port.apiCall s.id name (((env.port.dataUpdate s.id a0).getD a0) :: rest) <;>
    simp

/-- Witness for C3: `loadVideoByPlayerVars` on a concrete live state. -/
theorem c3_witness :
    callApi testEnv testPState "loadVideoByPlayerVars" [Value.obj 1] =
      .ok (match testEnv.port.apiCall testPState.id "loadVideoByPlayerVars"
            (((testEnv.port.dataUpdate testPState.id (Value.obj 1)).getD
              (Value.obj 1)) :: []) with
        | some v =>
          ⟨v, [Act.portDataUpdate testPState.id (Value.obj 1),
               Act.portApiCall testPState.id "loadVideoByPlayerVars"
                 (((testEnv.port.dataUpdate testPState.id (Value.obj 1)).getD
                   (Value.obj 1)) :: [])], testPState⟩
        | none =>
          ⟨testEnv.call (Fn.orig (testOrigs "loadVideoByPlayerVars"))
             (((testEnv.port.dataUpdate testPState.id (Value.obj 1)).getD
               (Value.obj 1)) :: []),
           [Act.portDataUpdate testPState.id (Value.obj 1),
            Act.portApiCall testPState.id "loadVideoByPlayerVars"
              (((testEnv.port.dataUpdate testPState.id (Value.obj 1)).getD
                (Value.obj 1)) :: []),
            Act.callFn (Fn.orig (testOrigs "loadVideoByPlayerVars"))
              (((testEnv.port.dataUpdate testPState.id (Value.obj 1)).getD
                (Value.obj 1)) :: [])],
           testPState⟩) :=
  c3_dataLoad_transform testEnv testPState testOrigs testApiList
    "loadVideoByPlayerVars" (Value.obj 1) [] rfl rfl (by decide) (by decide)

/-- Full behaviour of `callApi "destroy"` on a live adapter: one synthetic
destroy event through "player#event", optional `preventDefault`, then the
fall-through call to the original `destroy`. -/
theorem callApi_destroy_eq (env : Env) (s : PState) (origs : String → Nat)
    (apiList : List String) (args : List Value)
    (hapi : s.api = some (snapshotApi origs apiList)) (hport : s.port = true)
    (hmem : "destroy" ∈ apiList) :
    callApi env s "destroy" args =
      .ok ⟨env.call (Fn.orig (origs "destroy")) args,
        (Act.portEvent s.id EventType.destroy [] ::
          (if env.port.eventCall s.id EventType.destroy [] = some true
           then [Act.preventDefault] else [])) ++
          [Act.callFn (Fn.orig (origs "destroy")) args], s⟩ := by
  unfold callApi
  rw [if_neg (by decide), if_neg (by decide), if_pos rfl]
  unfold fireEvent
  rw [if_neg (show ¬ s.port = false by simp [hport])]
  simp [finishNoReturn, getApi_cached hapi, snapshotApi_lookup, hmem]

/-- Claim C6: `callApi "destroy"` fires exactly one destroy application
event (one "player#event" port call with the destroy kind) and performs no
call on the "player#api-call" channel. -/
theorem c6_destroy_single_event (env : Env) (s : PState) (origs : String → Nat)
    (apiList : List String) (args : List Value)
    (hapi : s.api = some (snapshotApi origs apiList)) (hport : s.port = true)
    (hmem : "destroy" ∈ apiList) :
    ∃ r, callApi env s "destroy" args = .ok r ∧
      (r.acts.filter (Act.isEventOf EventType.destroy)).length = 1 ∧
      r.acts.filter Act.isPortApiCall = [] := by
  refine ⟨_, callApi_destroy_eq env s origs apiList args hapi hport hmem, ?_, ?_⟩ <;>
    split <;> simp [Act.isEventOf, Act.isPortApiCall]

/-- Witness for C6 on a concrete live state. -/
theorem c6_witness :
    ∃ r, callApi testEnv testPState "destroy" [] = .ok r ∧
      (r.acts.filter (Act.isEventOf EventType.destroy)).length = 1 ∧
      r.acts.filter Act.isPortApiCall = [] :=
  c6_destroy_single_event testEnv testPState testOrigs testApiList [] rfl rfl
    (by decide)

/-- Full behaviour of `callApi "addEventListener"` on a live (not disposed)
adapter: route through the internal listenable, then fall through to the
original native `addEventListener`. -/
theorem callApi_addListener_eq (env : Env) (s : PState) (origs : String → Nat)
    (apiList : List String) (args : List Value)
    (hapi : s.api = some (snapshotApi origs apiList)) (hlive : s.disposed = false)
    (hmem : "addEventListener" ∈ apiList) :
    callApi env s "addEventListener" args =
      .ok ⟨env.call (Fn.orig (origs "addEventListener")) args,
        [Act.listenableAdd (args.getD 0 .undef) (args.getD 1 .undef),
         Act.callFn (Fn.orig (origs "addEventListener")) args],
        { s with hasListenable := true }⟩ := by
  unfold callApi
  rw [if_pos rfl]
  simp only [listenBranch, getApi_cached hapi,
    show (s.disposed = true) = False by simp [hlive], if_false, finishNoReturn,
    getApi_cached (show ({s with hasListenable := true} : PState).api =
      some (snapshotApi origs apiList) from hapi),
    snapshotApi_lookup, hmem, if_true, if_pos]
  rfl

/-- Full behaviour of `callApi "removeEventListener"` on a live adapter. -/
theorem callApi_removeListener_eq (env : Env) (s : PState) (origs : String → Nat)
    (apiList : List String) (args : List Value)
    (hapi : s.api = some (snapshotApi origs apiList)) (hlive : s.disposed = false)
    (hmem : "removeEventListener" ∈ apiList) :
    callApi env s "removeEventListener" args =
      .ok ⟨env.call (Fn.orig (origs "removeEventListener")) args,
        [Act.listenableRemove (args.getD 0 .undef) (args.getD 1 .undef),
         Act.callFn (Fn.orig (origs "removeEventListener")) args],
        { s with hasListenable := true }⟩ := by
  unfold callApi
  rw [if_neg (by decide), if_pos rfl]
  simp only [listenBranch, getApi_cached hapi,
    show (s.disposed = true) = False by simp [hlive], if_false, finishNoReturn,
    getApi_cached (show ({s with hasListenable := true} : PState).api =
      some (snapshotApi origs apiList) from hapi),
    snapshotApi_lookup, hmem, if_true, if_pos]
  rfl

/-- Claim C10: for the names addEventListener, removeEventListener and
destroy no port response is ever captured, so after the special handling
`callApi` additionally invokes the original pre-shadow operation of that
name with the same arguments — as the final action — and returns that
operation's result; in particular no "player#api-call" port call is made. -/
theorem c10_special_falls_through (env : Env) (s : PState) (origs : String → Nat)
    (apiList : List String) (name : String) (args : List Value)
    (hapi : s.api = some (snapshotApi origs apiList)) (hport : s.port = true)
    (hlive : s.disposed = false)
    (hname : name ∈ (["addEventListener", "removeEventListener", "destroy"] :
      List String))
    (hmem : name ∈ apiList) :
    ∃ r pre, callApi env s name args = .ok r ∧
      r.value = env.call (Fn.orig (origs name)) args ∧
      r.acts = pre ++ [Act.callFn (Fn.orig (origs name)) args] ∧
      r.acts.filter Act.isPortApiCall = [] := by
  have hname3 : name = "addEventListener" ∨ name = "removeEventListener" ∨
      name = "destroy" := by simpa using hname
  rcases hname3 with h | h | h <;> subst h
  · refine ⟨_, [Act.listenableAdd (args.getD 0 .undef) (args.getD 1 .undef)],
      callApi_addListener_eq env s origs apiList args hapi hlive hmem, rfl, rfl, ?_⟩
    simp [Act.isPortApiCall]
  · refine ⟨_, [Act.listenableRemove (args.getD 0 .undef) (args.getD 1 .undef)],
      callApi_removeListener_eq env s origs apiList args hapi hlive hmem, rfl, rfl, ?_⟩
    simp [Act.isPortApiCall]
  · refine ⟨_, Act.portEvent s.id EventType.destroy [] ::
      (if env.port.eventCall s.id EventType.destroy [] = some true
       then [Act.preventDefault] else []),
      callApi_destroy_eq env s origs apiList args hapi hport hmem, rfl, rfl, ?_⟩
    split <;> simp [Act.isPortApiCall]

/-- Witness for C10: `addEventListener` on a concrete live state. -/
theorem c10_witness :
    ∃ r pre, callApi testEnv testPState "addEventListener"
        [Value.str "onStateChange", Value.obj 7] = .ok r ∧
      r.value = testEnv.call (Fn.orig (testOrigs "addEventListener"))
        [Value.str "onStateChange", Value.obj 7] ∧
      r.acts = pre ++ [Act.callFn (Fn.orig (testOrigs "addEventListener"))
        [Value.str "onStateChange", Value.obj 7]] ∧
      r.acts.filter Act.isPortApiCall = [] :=
  c10_special_falls_through testEnv testPState testOrigs testApiList
    "addEventListener" [Value.str "onStateChange", Value.obj 7] rfl rfl rfl
    (by decide) (by decide)

/-- Claim C9 (amended): both construction/first-use failure conditions
surface as a distinguishable Error with a specific message; the
absent-element error identifies the adapter instance by its id, while the
missing-capability error is the fixed message
"No API interface on player element.", which does not mention the id. -/
theorem c9_construction_errors (s : PState) (hapi : s.api = none) :
    (s.elemPresent = false →
      s.getApi = .error (.error ("Player (" ++ s.id ++ ") is not initialized."))) ∧
    (s.elemPresent = true → s.elemHasApiInterface = false →
      s.getApi = .error (.error "No API interface on player element.")) := by
  constructor
  · intro h1
    simp [PState.getApi, hapi, h1]
  · intro h1 h2
    simp [PState.getApi, hapi, h1, h2]

/-- A player element without the capability-discovery operation. -/
def noIfaceState (id : String) : PState :=
  { id := id
    elemPresent := true
    elemHasApiInterface := false
    elemApiList := []
    elemProps := fun _ => Fn.orig 0
    api := none
    port := true
    hasListenable := false
    disposed := false }

/-- Counterexample for C9 as stated: two adapter instances with different
ids that both lack the capability-discovery operation raise the very same
error, so that error's message cannot identify the adapter instance. -/
theorem c9_counterexample :
    (noIfaceState "p1").getApi =
      .error (.error "No API interface on player element.") ∧
    (noIfaceState "p2").getApi =
      .error (.error "No API interface on player element.") ∧
    (noIfaceState "p1").id ≠ (noIfaceState "p2").id :=
  ⟨rfl, rfl, by decide⟩

/-- Witness for the amended C9 on a concrete uninitialized state. -/
theorem c9_witness :
    ((noIfaceState "p1").elemPresent = false →
      (noIfaceState "p1").getApi =
        .error (.error ("Player (" ++ (noIfaceState "p1").id ++
          ") is not initialized."))) ∧
    ((noIfaceState "p1").elemPresent = true →
      (noIfaceState "p1").elemHasApiInterface = false →
      (noIfaceState "p1").getApi =
        .error (.error "No API interface on player element.")) :=
  c9_construction_errors (noIfaceState "p1") rfl

/-- A successful `getApi` preserves the disposed flag and records the
returned snapshot in the cache. -/
theorem getApi_ok_state {s : PState} {a : Api} {s1 : PState}
    (h : s.getApi = .ok (a, s1)) :
    s1.disposed = s.disposed ∧ s1.api = some a := by
  unfold PState.getApi at h
  cases hs : s.api with
  | some a0 =>
    rw [hs] at h
    simp only [Except.ok.injEq, Prod.mk.injEq] at h
    obtain ⟨h1, h2⟩ := h
    subst h1
    subst h2
    exact ⟨rfl, hs⟩
  | none =>
    rw [hs] at h
    split_ifs at h with hp hi
    simp only [Except.ok.injEq, Prod.mk.injEq] at h
    obtain ⟨h1, h2⟩ := h
    subst h1
    subst h2
    exact ⟨rfl, rfl⟩

/-- Claim C8: disposal is idempotent — a second disposal of an
already-disposed adapter produces no error and is a no-op on the element
and the adapter state. -/
theorem c8_dispose_idempotent (s s' : PState) (h : s.dispose = .ok s') :
    s'.dispose = .ok s' := by
  have hd' : s'.disposed = true := by
    unfold PState.dispose at h
    by_cases hd : s.disposed = true
    · rw [if_pos hd] at h
      simp only [Except.ok.injEq] at h
      rw [← h]
      exact hd
    · rw [if_neg hd] at h
      unfold PState.disposeInternal at h
      cases hg : ({s with disposed := true} : PState).getApi with
      | error e => rw [hg] at h; simp at h
      | ok p =>
        obtain ⟨a, s1⟩ := p
        rw [hg] at h
        simp only [Except.ok.injEq] at h
        have hs1 : s1.disposed = ({s with disposed := true} : PState).disposed :=
          (getApi_ok_state hg).1
        rw [← h]
        exact hs1
  unfold PState.dispose
  rw [if_pos hd']

/-- A live fixture state after one disposal. -/
def testDisposed : PState :=
  match testPState.dispose with
  | .ok s => s
  | .error _ => testPState

/-- Witness for C8: disposing a concrete already-disposed adapter is a
no-op without error. -/
theorem c8_witness : testDisposed.dispose = .ok testDisposed :=
  c8_dispose_idempotent testPState testDisposed rfl

/-- Disposing a live adapter with a cached snapshot: restores every
snapshot key on the element and clears the listenable, element reference,
snapshot cache and port. -/
theorem dispose_fields {s s' : PState} {a : Api} (hapi : s.api = some a)
    (hlive : s.disposed = false) (h : s.dispose = .ok s') :
    s' = { s with
      elemProps := fun k =>
        match a.lookup k with
        | some f => f
        | none => s.elemProps k
      hasListenable := false
      elemPresent := false
      api := none
      port := false
      disposed := true } := by
  unfold PState.dispose at h
  rw [if_neg (show ¬ s.disposed = true by simp [hlive])] at h
  unfold PState.disposeInternal at h
  rw [getApi_cached (show ({s with disposed := true} : PState).api = some a
    from hapi)] at h
  simp only [Except.ok.injEq] at h
  rw [← h]

/-- `getApi` on a torn-down adapter (snapshot cache and element reference
cleared) raises the not-initialized error. -/
theorem getApi_dead {s : PState} (h1 : s.api = none) (h2 : s.elemPresent = false) :
    s.getApi = .error (.error ("Player (" ++ s.id ++ ") is not initialized.")) := by
  simp [PState.getApi, h1, h2]

/-- After teardown, the forwarded listener operations raise the
not-initialized error: `_addEventListener`/`_removeEventListener` call
`getApi` before their disposed check can delegate natively. -/
theorem callApi_listener_dead (env : Env) (s : PState) (name : String)
    (args : List Value)
    (hn : name = "addEventListener" ∨ name = "removeEventListener")
    (h1 : s.api = none) (h2 : s.elemPresent = false) :
    callApi env s name args =
      .error (.error ("Player (" ++ s.id ++ ") is not initialized.")) := by
  rcases hn with h | h <;> subst h
  · unfold callApi
    rw [if_pos rfl]
    unfold listenBranch
    rw [getApi_dead h1 h2]
  · unfold callApi
    rw [if_neg (by decide), if_pos rfl]
    unfold listenBranch
    rw [getApi_dead h1 h2]

/-- Claim C7 (amended): while the adapter is not disposed, the forwarded
addEventListener/removeEventListener operations are routed through the
internal per-instance listenable; once the adapter has been disposed the
calls do not delegate to the native listener methods but fail with the
not-initialized error, because disposal cleared the cached capability
snapshot and the element reference before the disposed branch can run. -/
theorem c7_listener_routing (env : Env) (s : PState) (origs : String → Nat)
    (apiList : List String) (t g : Value)
    (hapi : s.api = some (snapshotApi origs apiList)) (hlive : s.disposed = false)
    (hadd : "addEventListener" ∈ apiList) (hrem : "removeEventListener" ∈ apiList) :
    (∃ r, callApi env s "addEventListener" [t, g] = .ok r ∧
      r.acts.head? = some (Act.listenableAdd t g)) ∧
    (∃ r, callApi env s "removeEventListener" [t, g] = .ok r ∧
      r.acts.head? = some (Act.listenableRemove t g)) ∧
    (∀ s', s.dispose = .ok s' →
      callApi env s' "addEventListener" [t, g] =
        .error (.error ("Player (" ++ s.id ++ ") is not initialized.")) ∧
      callApi env s' "removeEventListener" [t, g] =
        .error (.error ("Player (" ++ s.id ++ ") is not initialized."))) := by
  refine ⟨⟨_, callApi_addListener_eq env s origs apiList [t, g] hapi hlive hadd, rfl⟩,
    ⟨_, callApi_removeListener_eq env s origs apiList [t, g] hapi hlive hrem, rfl⟩, ?_⟩
  intro s' hd
  have hs' := dispose_fields hapi hlive hd
  subst hs'
  exact ⟨callApi_listener_dead env _ "addEventListener" [t, g] (Or.inl rfl) rfl rfl,
    callApi_listener_dead env _ "removeEventListener" [t, g] (Or.inr rfl) rfl rfl⟩

/-- A concrete adapter as built by the constructor. -/
def c7Constructed : PState :=
  match construct "p1" testOrigs true true testApiList with
  | .ok s => s
  | .error _ => testPState

/-- The same adapter after disposal. -/
def c7Disposed : PState :=
  match c7Constructed.dispose with
  | .ok s => s
  | .error _ => c7Constructed

/-- Counterexample for C7 as stated: on a concrete disposed adapter the
forwarded addEventListener call does not delegate to the discovered native
listener method — it raises the not-initialized error. -/
theorem c7_counterexample :
    c7Disposed.disposed = true ∧
    callApi testEnv c7Disposed "addEventListener"
        [Value.str "onStateChange", Value.obj 7] =
      .error (.error "Player (p1) is not initialized.") := ⟨rfl, rfl⟩

/-- Witness for the amended C7 on a concrete live state. -/
theorem c7_witness :
    (∃ r, callApi testEnv testPState "addEventListener"
        [Value.str "x", Value.obj 1] = .ok r ∧
      r.acts.head? = some (Act.listenableAdd (Value.str "x") (Value.obj 1))) ∧
    (∃ r, callApi testEnv testPState "removeEventListener"
        [Value.str "x", Value.obj 1] = .ok r ∧
      r.acts.head? = some (Act.listenableRemove (Value.str "x") (Value.obj 1))) ∧
    (∀ s', testPState.dispose = .ok s' →
      callApi testEnv s' "addEventListener" [Value.str "x", Value.obj 1] =
        .error (.error ("Player (" ++ testPState.id ++ ") is not initialized.")) ∧
      callApi testEnv s' "removeEventListener" [Value.str "x", Value.obj 1] =
        .error (.error ("Player (" ++ testPState.id ++ ") is not initialized."))) :=
  c7_listener_routing testEnv testPState testOrigs testApiList
    (Value.str "x") (Value.obj 1) rfl rfl (by decide) (by decide)

/-- The adapter invariant behind claim C1: while live, the snapshot of the
originals is cached, the port is attached, and every discovered key on the
element is the forwarding closure; once disposed, the caches are cleared and
every discovered key is restored to its original callable. -/
def Inv (origs : String → Nat) (apiList : List String) (s : PState) : Prop :=
  (s.disposed = false →
    s.api = some (snapshotApi origs apiList) ∧ s.port = true ∧
    ∀ k, k ∈ apiList → s.elemProps k = Fn.forwarding k) ∧
  (s.disposed = true →
    s.api = none ∧ s.port = false ∧ s.elemPresent = false ∧
    ∀ k, k ∈ apiList → s.elemProps k = Fn.orig (origs k))

/-- The constructor, computed: on a present element with capability
discovery it caches the snapshot of originals and shadows every discovered
key. -/
theorem construct_eq (id : String) (origs : String → Nat) (apiList : List String) :
    construct id origs true true apiList =
      .ok { id := id
            elemPresent := true
            elemHasApiInterface := true
            elemApiList := apiList
            elemProps := fun k =>
              if ((snapshotApi origs apiList).lookup k).isSome then Fn.forwarding k
              else Fn.orig (origs k)
            api := some (snapshotApi origs apiList)
            port := true
            hasListenable := false
            disposed := false } := rfl

/-- A freshly constructed adapter satisfies the invariant. -/
theorem construct_inv (id : String) (origs : String → Nat) (apiList : List String)
    (s0 : PState) (hc : construct id origs true true apiList = .ok s0) :
    Inv origs apiList s0 := by
  rw [construct_eq] at hc
  simp only [Except.ok.injEq] at hc
  subst hc
  constructor
  · intro _
    refine ⟨rfl, rfl, fun k hk => ?_⟩
    simp [snapshotApi_lookup, hk]
  · intro hdt
    simp at hdt

/-- On a torn-down adapter every `callApi` raises: each switch branch hits
the deleted `_api`/`_element` or the deleted `_port` first. -/
theorem callApi_dead (env : Env) (s : PState) (n : String) (args : List Value)
    (h1 : s.api = none) (h2 : s.port = false) (h3 : s.elemPresent = false)
    (r : CallResult) : callApi env s n args ≠ .ok r := by
  intro hc
  unfold callApi at hc
  split at hc
  · unfold listenBranch at hc
    rw [getApi_dead h1 h3] at hc
    simp at hc
  · split at hc
    · unfold listenBranch at hc
      rw [getApi_dead h1 h3] at hc
      simp at hc
    · split at hc
      · unfold fireEvent at hc
        rw [h2] at hc
        simp at hc
      · split at hc
        all_goals
          first
          | (unfold defaultBranch at hc
             rw [h2] at hc
             simp at hc)
          | simp at hc

/-- The fall-through tail leaves the state unchanged when the snapshot is
cached. -/
theorem finishNoReturn_state (env : Env) (s : PState) (n : String)
    (args : List Value) (acts : List Act) (a : Api) (r : CallResult)
    (hapi : s.api = some a) (h : finishNoReturn env s n args acts = .ok r) :
    r.state = s := by
  unfold finishNoReturn at h
  rw [getApi_cached hapi] at h
  have hred : (match a.lookup n with
    | none => (.error JsError.typeError : Except JsError CallResult)
    | some f =>
      .ok ⟨env.call f args, acts ++ [Act.callFn f args], s⟩) = .ok r := h
  cases hl : a.lookup n with
  | none =>
    rw [hl] at hred
    simp at hred
  | some f =>
    rw [hl] at hred
    cases hred
    rfl

/-- The default branch leaves the state unchanged when the snapshot is
cached. -/
theorem defaultBranch_state (env : Env) (s : PState) (n : String)
    (args : List Value) (acts : List Act) (a : Api) (r : CallResult)
    (hapi : s.api = some a) (h : defaultBranch env s n args acts = .ok r) :
    r.state = s := by
  unfold defaultBranch at h
  split at h
  · simp at h
  · split at h
    · cases h
      rfl
    · exact finishNoReturn_state env s n args _ a r hapi h

/-- The listener branch, computed on a state with a cached snapshot. -/
theorem listenBranch_cases (s : PState) (m : String) (b : Bool)
    (args : List Value) (a : Api) (hapi : s.api = some a) :
    listenBranch s m b args =
      (if s.disposed = true then
        (match a.lookup m with
         | none => (.error .typeError : Except JsError (PState × List Act))
         | some g => .ok (s, [Act.callFn g [args.getD 0 .undef, args.getD 1 .undef]]))
      else
        .ok ({ s with hasListenable := true },
          [if b then Act.listenableAdd (args.getD 0 .undef) (args.getD 1 .undef)
           else Act.listenableRemove (args.getD 0 .undef) (args.getD 1 .undef)])) := by
  unfold listenBranch
  rw [getApi_cached hapi]

/-- On a live adapter with a cached snapshot, `callApi` either leaves the
state unchanged or only records that the player listenable now exists. -/
theorem callApi_live_state (env : Env) (s : PState) (a : Api) (n : String)
    (args : List Value) (r : CallResult) (hapi : s.api = some a)
    (h : callApi env s n args = .ok r) :
    r.state = s ∨ r.state = { s with hasListenable := true } := by
  unfold callApi at h
  split at h
  · rw [listenBranch_cases s "addEventListener" true args a hapi] at h
    by_cases hd : s.disposed = true
    · rw [if_pos hd] at h
      cases hl : a.lookup "addEventListener" with
      | none => rw [hl] at h; simp at h
      | some g =>
        rw [hl] at h
        exact Or.inl (finishNoReturn_state env s n args _ a r hapi h)
    · rw [if_neg hd] at h
      exact Or.inr (finishNoReturn_state env { s with hasListenable := true }
        n args _ a r hapi h)
  · split at h
    · rw [listenBranch_cases s "removeEventListener" false args a hapi] at h
      by_cases hd : s.disposed = true
      · rw [if_pos hd] at h
        cases hl : a.lookup "removeEventListener" with
        | none => rw [hl] at h; simp at h
        | some g =>
          rw [hl] at h
          exact Or.inl (finishNoReturn_state env s n args _ a r hapi h)
      · rw [if_neg hd] at h
        exact Or.inr (finishNoReturn_state env { s with hasListenable := true }
          n args _ a r hapi h)
    · split at h
      · unfold fireEvent at h
        by_cases hp : s.port = false
        · rw [if_pos hp] at h
          simp at h
        · rw [if_neg hp] at h
          exact Or.inl (finishNoReturn_state env s n args _ a r hapi h)
      · split at h
        · by_cases hp : s.port = false
          · rw [if_pos hp] at h
            simp at h
          · rw [if_neg hp] at h
            exact Or.inl (defaultBranch_state env s n _ _ a r hapi h)
        · exact Or.inl (defaultBranch_state env s n args _ a r hapi h)

/-- One external step preserves the invariant. -/
theorem stepOp_inv (env : Env) (origs : String → Nat) (apiList : List String)
    (s s' : PState) (op : Op) (hinv : Inv origs apiList s)
    (h : stepOp env s op = .ok s') : Inv origs apiList s' := by
  cases op with
  | disposeOp =>
    simp only [stepOp] at h
    by_cases hd : s.disposed = true
    · unfold PState.dispose at h
      rw [if_pos hd] at h
      simp only [Except.ok.injEq] at h
      rwa [← h]
    · have hd' : s.disposed = false := by simpa using hd
      obtain ⟨hapi, hport, _⟩ := hinv.1 hd'
      have hs' := dispose_fields hapi hd' h
      subst hs'
      constructor
      · intro hfalse
        simp at hfalse
      · intro _
        refine ⟨rfl, rfl, rfl, fun k hk => ?_⟩
        simp [snapshotApi_lookup, hk]
  | callOp n args =>
    simp only [stepOp] at h
    cases hcall : callApi env s n args with
    | error e =>
      rw [hcall] at h
      simp [Except.map] at h
    | ok r =>
      rw [hcall] at h
      simp only [Except.map, Except.ok.injEq] at h
      by_cases hd : s.disposed = true
      · obtain ⟨hapi, hport, helem, _⟩ := hinv.2 hd
        exact absurd hcall (callApi_dead env s n args hapi hport helem r)
      · have hd' : s.disposed = false := by simpa using hd
        obtain ⟨hapi, _, _⟩ := hinv.1 hd'
        rcases callApi_live_state env s _ n args r hapi hcall with hs | hs
        · rw [← h, hs]
          exact hinv
        · rw [← h, hs]
          exact hinv

/-- A whole run of external operations preserves the invariant. -/
theorem runOps_inv (env : Env) (origs : String → Nat) (apiList : List String)
    (ops : List Op) : ∀ s s', Inv origs apiList s →
      runOps env s ops = .ok s' → Inv origs apiList s' := by
  induction ops with
  | nil =>
    intro s s' hinv h
    simp only [runOps, Except.ok.injEq] at h
    rwa [← h]
  | cons op rest ih =>
    intro s s' hinv h
    unfold runOps at h
    cases hstep : stepOp env s op with
    | error e =>
      rw [hstep] at h
      simp at h
    | ok s1 =>
      rw [hstep] at h
      exact ih s1 s' (stepOp_inv env origs apiList s s1 op hinv hstep) h

/-- Claim C1: starting from construction, along any sequence of adapter
operations, while the adapter is not disposed every operation name returned
by capability discovery is shadowed on the element by the forwarding
function (which is not the original callable); after disposal every
previously shadowed operation name is restored to be reference-equal to the
original callable captured before shadowing. -/
theorem c1_shadow_restore (env : Env) (id : String) (origs : String → Nat)
    (apiList : List String) (ops : List Op) (s0 s : PState) (k : String)
    (hc : construct id origs true true apiList = .ok s0)
    (hr : runOps env s0 ops = .ok s) (hk : k ∈ apiList) :
    (s.disposed = false →
      s.elemProps k = Fn.forwarding k ∧ Fn.forwarding k ≠ Fn.orig (origs k)) ∧
    (s.disposed = true → s.elemProps k = Fn.orig (origs k)) := by
  have hinv : Inv origs apiList s :=
    runOps_inv env origs apiList ops s0 s (construct_inv id origs apiList s0 hc) hr
  constructor
  · intro hd
    exact ⟨(hinv.1 hd).2.2 k hk, by simp⟩
  · intro hd
    exact (hinv.2 hd).2.2.2 k hk

/-- Witness for C1: a concrete constructed adapter that is then disposed. -/
theorem c1_witness :
    (c7Disposed.disposed = false →
      c7Disposed.elemProps "playVideo" = Fn.forwarding "playVideo" ∧
      Fn.forwarding "playVideo" ≠ Fn.orig (testOrigs "playVideo")) ∧
    (c7Disposed.disposed = true →
      c7Disposed.elemProps "playVideo" = Fn.orig (testOrigs "playVideo")) :=
  c1_shadow_restore testEnv "p1" testOrigs testApiList [Op.disposeOp]
    c7Constructed c7Disposed "playVideo" rfl rfl (by decide)

end MaiaPlayer
